import Mathlib

/-!
# Verification of the MessageHandler command-routing core

Shallow embedding of `MessageHandler.jsm` (the remote-protocol message
handler base class): the `ContextDescriptorType` enum, the `MessageHandler`
class with its constructor, accessors (`contextId`, `sessionId`, `name`),
`destroy`, `emitEvent`, `getAllModuleClasses`, `handleCommand`,
`supportsCommand`, the base `forwardCommand`, and the default
`applyInitialSessionDataItems`.

The companion modules `ModuleCache.jsm`, `EventsDispatcher.jsm` and
`Errors.jsm` are not part of the sources under verification; the few
behaviours of theirs that the handler depends on are modelled from the
specification (each such definition says so in its doc comment).

JavaScript evaluation is embedded as follows: a method call either throws
a synchronous exception or returns a value (`SyncResult`); a returned
promise is represented by its eventual outcome (`PromiseOutcome`); the
mutable parts of a handler (the contents of its module cache and events
dispatcher) are threaded explicitly as a state record, while the fields
assigned by the constructor (including the object references held in
`_moduleCache` / `_eventsDispatcher`) live in an immutable `Handler`
record; `EventEmitter.emit` calls are recorded as a list of `Emission`s.
-/

namespace MessageHandlerSpec

/-- A concrete context is identified by an opaque string id (for
`TopBrowsingContext` descriptors this is a WindowManager UUID). -/
abbrev Context := String

/-- Enum of ContextDescriptor types, from `ContextDescriptorType` in the
source: exactly the two tags `All` and `TopBrowsingContext`. -/
inductive ContextDescriptorType where
  | All
  | TopBrowsingContext
  deriving DecidableEq

/-- A ContextDescriptor: tag `All` carries no id (the JSDoc says id can be
omitted for `All`); tag `TopBrowsingContext` carries the id of one
concrete context. -/
inductive ContextDescriptor where
  | all
  | topBrowsingContext (id : String)
  deriving DecidableEq

/-- The descriptor tag of a `ContextDescriptor` value. -/
def ContextDescriptor.descriptorType : ContextDescriptor → ContextDescriptorType
  | .all => .All
  | .topBrowsingContext _ => .TopBrowsingContext

/-- Modelled from the spec: the context-matching predicate (the spec's
`matchContext`, which lives in registry code not under verification):
an `All` descriptor matches every context; a specific descriptor matches
exactly the one concrete context with the given id. -/
def matchContext : ContextDescriptor → Context → Bool
  | .all, _ => true
  | .topBrowsingContext i, ctx => ctx = i

/-- A `CommandDestination`: a handler type plus either a concrete context
id or a context descriptor (both optional in the typedef). -/
structure Destination where
  type : String
  id : Option String
  contextDescriptor : Option ContextDescriptor
  deriving DecidableEq

/-- A `Command` as in the source typedef: module name, command name,
parameters (opaque), destination, and the optional `retryOnAbort` flag
(absent means the documented default `false`). -/
structure Command where
  commandName : String
  moduleName : String
  params : String
  destination : Destination
  retryOnAbort : Option Bool
  deriving DecidableEq

/-- Errors that can surface from the command-handling core. The
constructors `unsupportedCommand` (from `Errors.jsm`, not under
verification, hence carrying just its message) and `genericError` (a plain
JavaScript `Error`) are raised by code in the source; `transportAbort` and
`destinationUnreachable` are modelled from the spec's error taxonomy
(`TransportAbortError`, `DestinationUnreachableError`). -/
inductive JSError where
  | unsupportedCommand (message : String)
  | genericError (message : String)
  | transportAbort (message : String)
  | destinationUnreachable (message : String)
  deriving DecidableEq

/-- The eventual outcome of a promise: resolved with an (opaque) value or
rejected with an error. -/
inductive PromiseOutcome where
  | resolved (value : String)
  | rejected (error : JSError)
  deriving DecidableEq

/-- The synchronous behaviour of a method call: it either returns a value
(for the command path, a promise represented by its outcome) or throws a
synchronous exception. -/
inductive SyncResult where
  | returned (promise : PromiseOutcome)
  | threw (error : JSError)
  deriving DecidableEq

/-- `SyncResult.threw (.unsupportedCommand _)`, as a Boolean test. -/
def SyncResult.isUnsupportedThrow : SyncResult → Bool
  | .threw (.unsupportedCommand _) => true
  | _ => false

/-- `SyncResult.threw (.destinationUnreachable _)`, as a Boolean test. -/
def SyncResult.isDestinationUnreachableThrow : SyncResult → Bool
  | .threw (.destinationUnreachable _) => true
  | _ => false

/-- `SyncResult.threw _` (a synchronous exception), as a Boolean test. -/
def SyncResult.isThrow : SyncResult → Bool
  | .threw _ => true
  | _ => false

/-- A module instance, per the module contract consumed by the core: an
instance-level `supportsMethod` predicate and dynamic method dispatch
`module[commandName](params, destination)`, whose returned promise is
represented by its outcome. -/
structure ModuleInstance where
  supportsMethod : String → Bool
  invoke : String → String → Destination → PromiseOutcome

/-- A module class, per the module contract: a class-level `supportsMethod`
predicate and instantiation. -/
structure ModuleClass where
  supportsMethod : String → Bool
  newInstance : ModuleInstance

/-- The static, per-handler-class module registry: resolves the module
classes for a (module name, destination) pair, already filtered by the
handler's own type. Modelled from the spec: the lookup itself lives in
`ModuleCache.jsm`, not under verification. -/
abbrev ModuleRegistry := String → Destination → List ModuleClass

/-- The class-level (static) part of a MessageHandler subclass: its
`type`, its `getIdFromContext`, and the module registry its ModuleCache
resolves classes from. -/
structure HandlerClass where
  type : String
  getIdFromContext : Context → String
  moduleRegistry : ModuleRegistry

/-- The fields a MessageHandler's constructor assigns, never reassigned
afterwards. `moduleCacheRef` and `eventsDispatcherRef` stand for the
object references stored in `this._moduleCache` / `this._eventsDispatcher`
(the objects' mutable contents are threaded separately in `MHState`). -/
structure Handler where
  sessionId : String
  context : Context
  contextId : String
  moduleCacheRef : Nat
  eventsDispatcherRef : Nat
  deriving DecidableEq

/-- The contents of a ModuleCache: cached module instances keyed by
(module name, destination). Modelled from the spec (`ModuleCache.jsm` is
not under verification). -/
abbrev CacheState := List ((String × Destination) × ModuleInstance)

/-- The contents of an EventsDispatcher (its registered listeners, kept
opaque). Modelled from the spec (`EventsDispatcher.jsm` is not under
verification). -/
abbrev DispatcherState := List String

/-- The full state of one MessageHandler instance: the constructor-assigned
fields plus the mutable contents of its ModuleCache and its
EventsDispatcher. -/
structure MHState where
  handler : Handler
  cache : CacheState
  dispatcher : DispatcherState

/-- The payload of a "message-handler-event" emission, as built by
`emitEvent`. -/
structure EventPayload where
  name : String
  data : String
  isProtocolEvent : Bool
  sessionId : String
  deriving DecidableEq

/-- One `EventEmitter.emit` call performed by the handler: the
"message-handler-event" envelope, a re-emission under a bare event name,
or the "message-handler-destroyed" notification (which carries the handler
itself). -/
inductive Emission where
  | messageHandlerEvent (payload : EventPayload)
  | named (name : String) (data : String)
  | messageHandlerDestroyed (handler : Handler)
  deriving DecidableEq

/-- Boolean test for a "message-handler-event" emission. -/
def Emission.isMessageHandlerEvent : Emission → Bool
  | .messageHandlerEvent _ => true
  | _ => false

/-- Boolean test for a "message-handler-destroyed" emission. -/
def Emission.isDestroyedNotification : Emission → Bool
  | .messageHandlerDestroyed _ => true
  | _ => false

/-- The `options` argument of `emitEvent`: an object whose
`isProtocolEvent` property may be absent. -/
structure EmitOptions where
  isProtocolEvent : Option Bool
  deriving DecidableEq

/-- The MessageHandler constructor: creates the ModuleCache (empty), stores
`sessionId` and `context`, computes `contextId` once via the class's static
`getIdFromContext`, and creates the EventsDispatcher (empty). `nextRef` is
the allocator counter for the two fresh component objects. -/
def construct (cls : HandlerClass) (sessionId : String) (context : Context)
    (nextRef : Nat) : MHState :=
  { handler :=
      { sessionId := sessionId
        context := context
        contextId := cls.getIdFromContext context
        moduleCacheRef := nextRef
        eventsDispatcherRef := nextRef + 1 }
    cache := []
    dispatcher := [] }

/-- The `name` accessor:
`[this.sessionId, this.constructor.type, this.contextId].join("-")`. -/
def handlerName (cls : HandlerClass) (h : Handler) : String :=
  String.intercalate "-" [h.sessionId, cls.type, h.contextId]

/-- `destroy()`: destroys the EventsDispatcher (clearing its listeners) and
the ModuleCache (releasing its cached instances) — both modelled from the
spec, as those classes are not under verification — then unconditionally
emits "message-handler-destroyed" carrying the handler. -/
def destroy (st : MHState) : MHState × List Emission :=
  ({ st with cache := [], dispatcher := [] },
   [.messageHandlerDestroyed st.handler])

/-- `emitEvent(name, data, options)`: reads `isProtocolEvent` from the
options with default `false`, emits one "message-handler-event" whose
payload is `{ name, data, isProtocolEvent, sessionId: this.sessionId }`,
then re-emits under the bare event name when the event is not a protocol
event. The handler state is untouched; the return value is the list of
emissions performed. -/
def emitEvent (h : Handler) (name : String) (data : String)
    (options : EmitOptions) : List Emission :=
  let isProtocolEvent := options.isProtocolEvent.getD false
  [.messageHandlerEvent
      { name := name, data := data, isProtocolEvent := isProtocolEvent
        sessionId := h.sessionId }] ++
    (if isProtocolEvent then [] else [.named name data])

/-- `getAllModuleClasses(moduleName, destination)`: delegates to the
ModuleCache, which performs a pure lookup against the static module
registry (modelled from the spec). -/
def getAllModuleClasses (cls : HandlerClass) (moduleName : String)
    (destination : Destination) : List ModuleClass :=
  cls.moduleRegistry moduleName destination

/-- `supportsCommand(moduleName, commandName, destination)`:
`getAllModuleClasses(...).some(cls => cls.supportsMethod(commandName))`. -/
def supportsCommand (cls : HandlerClass) (moduleName commandName : String)
    (destination : Destination) : Bool :=
  (getAllModuleClasses cls moduleName destination).any fun c =>
    c.supportsMethod commandName

/-- Modelled from the spec: `ModuleCache.getModuleInstance` (the class is
not under verification) returns the cached instance for the
(moduleName, destination) key when present; otherwise resolves a concrete
class from the registry, instantiates it, caches the instance and returns
it; returns null when no class resolves. -/
def getModuleInstance (cls : HandlerClass) (cache : CacheState)
    (moduleName : String) (destination : Destination) :
    Option ModuleInstance × CacheState :=
  match cache.find? (fun e => decide (e.1 = (moduleName, destination))) with
  | some e => (some e.2, cache)
  | none =>
    match getAllModuleClasses cls moduleName destination with
    | [] => (none, cache)
    | c :: _ =>
      (some c.newInstance,
       ((moduleName, destination), c.newInstance) :: cache)

/-- The base-class `forwardCommand`: `throw new Error("Not implemented")`,
a synchronous throw of a plain `Error`. -/
def baseForwardCommand : Command → SyncResult :=
  fun _ => .threw (.genericError "Not implemented")

/-- `handleCommand(command)`. Following the source line by line: if
`supportsCommand` is false, synchronously throw `UnsupportedCommandError`
with the message naming module, command and destination type; otherwise
obtain the module instance from the ModuleCache and, when it exists and
`supportsMethod(commandName)` holds, return
`module[commandName](params, destination)`; otherwise return
`forwardCommand(command)`. `fwd` is the polymorphic `forwardCommand` of
the concrete subclass (`baseForwardCommand` for the base class). -/
def handleCommand (cls : HandlerClass) (fwd : Command → SyncResult)
    (st : MHState) (command : Command) : SyncResult × MHState :=
  let moduleName := command.moduleName
  let commandName := command.commandName
  let params := command.params
  let destination := command.destination
  if !(supportsCommand cls moduleName commandName destination) then
    (.threw (.unsupportedCommand
        (moduleName ++ "." ++ commandName ++
          " not supported for destination " ++ destination.type)), st)
  else
    let r := getModuleInstance cls st.cache moduleName destination
    let st1 : MHState := { st with cache := r.2 }
    match r.1 with
    | some m =>
      if m.supportsMethod commandName then
        (.returned (m.invoke commandName params destination), st1)
      else
        (fwd command, st1)
    | none => (fwd command, st1)

/-- `async applyInitialSessionDataItems(sessionDataItems) {}` — the default
implementation: a no-op that resolves with `undefined`. -/
def applyInitialSessionDataItems (st : MHState) (_items : List String) :
    MHState × PromiseOutcome :=
  (st, .resolved "undefined")

/-- The local-dispatch decision taken on line 230 of the source:
`module && module.supportsMethod(commandName)` — the command is handled by
a local module exactly when the cache produced an instance and that
instance supports the command name. -/
def localHandles (inst : Option ModuleInstance) (commandName : String) : Bool :=
  match inst with
  | some m => m.supportsMethod commandName
  | none => false

/-- Modelled from the spec: the outcome of one attempt to forward a
command over the transport to the next hop — either the round trip
completes with the remote outcome, or the underlying link is destroyed
mid-command (an abort). -/
inductive TransportAttempt where
  | completed (result : PromiseOutcome)
  | aborted
  deriving DecidableEq

/-- Modelled from the spec: the transport-level forwarding policy (it
lives in subclass/transport code not under verification). The first
attempt is made; on an abort, when the command's `retryOnAbort` flag is
set (absent meaning the documented default `false`), the hop is
re-resolved and the command retried exactly once, the retry's completion
becoming the result and a second abort surfacing as a transport error;
without the flag the first abort surfaces immediately. Returns the
surfaced outcome together with the number of attempts consumed. -/
def forwardOverTransport (command : Command)
    (attempt1 attempt2 : TransportAttempt) : PromiseOutcome × Nat :=
  let retryOnAbort := command.retryOnAbort.getD false
  match attempt1 with
  | .completed p => (p, 1)
  | .aborted =>
    if retryOnAbort then
      match attempt2 with
      | .completed p => (p, 2)
      | .aborted => (.rejected (.transportAbort "transport aborted"), 2)
    else
      (.rejected (.transportAbort "transport aborted"), 1)

/-! ### Concrete fixtures

A deterministic fixture registry in the style of the spec's concrete
scenario (§8): session "S1", module "nav", command "go". Used by the
witness and counterexample theorems below. -/

/-- A concrete destination. -/
def sampleDestination : Destination :=
  ⟨"WINDOW_GLOBAL", some "42", none⟩

/-- A concrete command for the fixture module. -/
def sampleCommand : Command :=
  ⟨"go", "nav", "url", sampleDestination, none⟩

/-- A concrete command whose module name no registry entry matches. -/
def sampleUnknownCommand : Command :=
  ⟨"go", "unknown", "url", sampleDestination, none⟩

/-- A concrete command with `retryOnAbort: true`. -/
def sampleRetryCommand : Command :=
  ⟨"go", "nav", "url", sampleDestination, some true⟩

/-- A fixture module instance supporting exactly the command "go". -/
def sampleModuleInstance : ModuleInstance :=
  ⟨fun c => c = "go", fun _ _ _ => .resolved "ok"⟩

/-- The fixture module class for `sampleModuleInstance`. -/
def sampleModuleClass : ModuleClass :=
  ⟨fun c => c = "go", sampleModuleInstance⟩

/-- A fixture handler class whose registry resolves `sampleModuleClass`
for the module name "nav" and nothing otherwise. -/
def sampleHandlerClass : HandlerClass :=
  ⟨"WINDOW_GLOBAL", fun ctx => ctx,
   fun moduleName _destination =>
     if moduleName = "nav" then [sampleModuleClass] else []⟩

/-- A freshly constructed fixture handler state for session "S1". -/
def sampleState : MHState :=
  construct sampleHandlerClass "S1" "ctx-42" 0

/-! ## Helper lemmas (shared) -/

/-- Helper: `handleCommand` never changes the handler record (the
constructor-assigned fields, including the component references) nor the
dispatcher contents. -/
theorem handleCommand_state_frame (cls : HandlerClass)
    (fwd : Command → SyncResult) (st : MHState) (command : Command) :
    (handleCommand cls fwd st command).2.handler = st.handler ∧
    (handleCommand cls fwd st command).2.dispatcher = st.dispatcher := by
  unfold handleCommand
  dsimp only
  split
  · exact ⟨rfl, rfl⟩
  · split
    · split
      · exact ⟨rfl, rfl⟩
      · exact ⟨rfl, rfl⟩
    · exact ⟨rfl, rfl⟩

/-- Helper: `getModuleInstance` leaves the cache unchanged (cache hit, or
no class resolving) or prepends the newly instantiated module under the
queried key (lazy population). -/
theorem getModuleInstance_cache_frame (cls : HandlerClass)
    (cache : CacheState) (moduleName : String) (destination : Destination) :
    (getModuleInstance cls cache moduleName destination).2 = cache ∨
    ∃ m, (getModuleInstance cls cache moduleName destination).2 =
      ((moduleName, destination), m) :: cache := by
  unfold getModuleInstance
  split
  · exact Or.inl rfl
  · split
    · exact Or.inl rfl
    · exact Or.inr ⟨_, rfl⟩

/-- Helper: the cache after `handleCommand` is the old cache, possibly
with one lazily instantiated module prepended under the command's
(module name, destination) key. -/
theorem handleCommand_cache_frame (cls : HandlerClass)
    (fwd : Command → SyncResult) (st : MHState) (command : Command) :
    (handleCommand cls fwd st command).2.cache = st.cache ∨
    ∃ m, (handleCommand cls fwd st command).2.cache =
      ((command.moduleName, command.destination), m) :: st.cache := by
  have h := getModuleInstance_cache_frame cls st.cache command.moduleName
    command.destination
  unfold handleCommand
  dsimp only
  split
  · exact Or.inl rfl
  · split
    · split
      · simpa using h
      · simpa using h
    · simpa using h

/-! ## Claim theorems -/

/-- C9: `ContextDescriptor` is a tagged union with exactly two variants —
`All` (source tag `All`), which matches every context, and the
specific-context variant (source tag `TopBrowsingContext`, the spec's
`SpecificContext`) carrying a string id, which matches exactly the one
concrete context identified by that id (matching modelled from the
spec). -/
theorem contextDescriptor_shape_and_matching :
    (∀ d : ContextDescriptor,
      d = .all ∨ ∃ i : String, d = .topBrowsingContext i) ∧
    (∀ d : ContextDescriptor,
      d.descriptorType = .All ∨ d.descriptorType = .TopBrowsingContext) ∧
    (∀ ctx : Context, matchContext .all ctx = true) ∧
    (∀ (i : String) (ctx : Context),
      matchContext (.topBrowsingContext i) ctx = true ↔ ctx = i) := by
  refine ⟨?_, ?_, ?_, ?_⟩
  · intro d
    cases d with
    | all => exact Or.inl rfl
    | topBrowsingContext i => exact Or.inr ⟨i, rfl⟩
  · intro d
    cases d with
    | all => exact Or.inl rfl
    | topBrowsingContext i => exact Or.inr rfl
  · intro ctx
    rfl
  · intro i ctx
    simp [matchContext]

/-- Witness for C9: the `All` descriptor matches a concrete context, and
the specific descriptor matches exactly its own id. -/
theorem contextDescriptor_shape_and_matching_witness :
    matchContext .all "ctx-42" = true ∧
    (matchContext (.topBrowsingContext "uuid-1") "uuid-1" = true ↔
      ("uuid-1" : String) = "uuid-1") :=
  ⟨contextDescriptor_shape_and_matching.2.2.1 "ctx-42",
   contextDescriptor_shape_and_matching.2.2.2 "uuid-1" "uuid-1"⟩

/-- C3: `emitEvent(name, data, options)` always succeeds locally (it is a
total operation on the handler) and performs exactly one
"message-handler-event" emission, whose payload is
`{ name, data, isProtocolEvent, sessionId }` with `sessionId` the
handler's own and `isProtocolEvent` defaulting to `false` when omitted
(an empty options object behaves like `{isProtocolEvent: false}`); the
event is additionally re-emitted under its bare name iff it is not a
protocol event. The handler state is not an input or output of
`emitEvent` in the model because the source method only reads
`this.sessionId`. -/
theorem emitEvent_envelope (h : Handler) (name data : String)
    (options : EmitOptions) :
    (emitEvent h name data options).filter Emission.isMessageHandlerEvent =
      [.messageHandlerEvent
        ⟨name, data, options.isProtocolEvent.getD false, h.sessionId⟩] ∧
    (Emission.named name data ∈ emitEvent h name data options ↔
      options.isProtocolEvent.getD false = false) ∧
    emitEvent h name data ⟨none⟩ = emitEvent h name data ⟨some false⟩ := by
  obtain ⟨ipo⟩ := options
  cases ipo with
  | none => simp [emitEvent, Emission.isMessageHandlerEvent]
  | some b => cases b <;> simp [emitEvent, Emission.isMessageHandlerEvent]

/-- C6 counterexample: the base `forwardCommand`, applied to a concrete
command, throws the plain JavaScript `Error("Not implemented")` — not a
`DestinationUnreachableError` as the claim states. -/
theorem forwardCommand_unreachable_counterexample :
    baseForwardCommand sampleCommand =
      .threw (.genericError "Not implemented") ∧
    (baseForwardCommand sampleCommand).isDestinationUnreachableThrow
      = false :=
  ⟨rfl, rfl⟩

/-- C6 amended: invoking the base (default) `forwardCommand` always fails
— it synchronously throws a plain `Error("Not implemented")` ("needs to
be implemented in the sub class") — and never silently succeeds; the
error is however not the spec's `DestinationUnreachableError`. -/
theorem baseForwardCommand_always_fails (command : Command) :
    baseForwardCommand command = .threw (.genericError "Not implemented") ∧
    (baseForwardCommand command).isThrow = true ∧
    ∀ p : PromiseOutcome, baseForwardCommand command ≠ .returned p := by
  refine ⟨rfl, rfl, ?_⟩
  intro p hp
  exact SyncResult.noConfusion hp

/-- C7: on every execution path of `handleCommand` — local module
success, local module error, unsupported command, and forwarding failure
— the handler's own fields (`sessionId`, `contextId`, the `context`
reference, and the references held in `_moduleCache` and
`_eventsDispatcher`) are unchanged, the dispatcher contents are
unchanged, and the module cache contents change at most by the documented
lazy population of the requested module instance: `handleCommand` never
leaves the handler partially mutated. -/
theorem handleCommand_frame (cls : HandlerClass) (fwd : Command → SyncResult)
    (st : MHState) (command : Command) :
    (handleCommand cls fwd st command).2.handler.sessionId
      = st.handler.sessionId ∧
    (handleCommand cls fwd st command).2.handler.contextId
      = st.handler.contextId ∧
    (handleCommand cls fwd st command).2.handler.context
      = st.handler.context ∧
    (handleCommand cls fwd st command).2.handler.moduleCacheRef
      = st.handler.moduleCacheRef ∧
    (handleCommand cls fwd st command).2.handler.eventsDispatcherRef
      = st.handler.eventsDispatcherRef ∧
    (handleCommand cls fwd st command).2.handler = st.handler ∧
    (handleCommand cls fwd st command).2.dispatcher = st.dispatcher ∧
    ((handleCommand cls fwd st command).2.cache = st.cache ∨
      ∃ m, (handleCommand cls fwd st command).2.cache =
        ((command.moduleName, command.destination), m) :: st.cache) := by
  obtain ⟨h1, h2⟩ := handleCommand_state_frame cls fwd st command
  exact ⟨by rw [h1], by rw [h1], by rw [h1], by rw [h1], by rw [h1],
    h1, h2, handleCommand_cache_frame cls fwd st command⟩

/-- C10: `sessionId` and `contextId` are fixed at construction
(`contextId` computed once as the class's static `getIdFromContext`
applied to the supplied context), no operation reassigns them
(`emitEvent` does not touch the state at all in the model, mirroring the
source method which only reads `this.sessionId`), and the `name` accessor
always returns `sessionId`, the class `type` and `contextId` joined with
"-". -/
theorem handler_identity_fixed (cls : HandlerClass) (sessionId : String)
    (context : Context) (nextRef : Nat) (fwd : Command → SyncResult)
    (command : Command) (items : List String) :
    (construct cls sessionId context nextRef).handler.sessionId
      = sessionId ∧
    (construct cls sessionId context nextRef).handler.contextId
      = cls.getIdFromContext context ∧
    (construct cls sessionId context nextRef).handler.context = context ∧
    (∀ st : MHState,
      (handleCommand cls fwd st command).2.handler.sessionId
          = st.handler.sessionId ∧
        (handleCommand cls fwd st command).2.handler.contextId
          = st.handler.contextId) ∧
    (∀ st : MHState,
      (applyInitialSessionDataItems st items).1.handler = st.handler) ∧
    (∀ st : MHState, (destroy st).1.handler = st.handler) ∧
    (∀ h : Handler,
      handlerName cls h =
        h.sessionId ++ "-" ++ cls.type ++ "-" ++ h.contextId) := by
  refine ⟨rfl, rfl, rfl, ?_, fun _ => rfl, fun _ => rfl, fun _ => rfl⟩
  intro st
  have h1 := (handleCommand_state_frame cls fwd st command).1
  exact ⟨by rw [h1], by rw [h1]⟩

/-- C1: when at least one resolved module class supports the command name,
`handleCommand` takes exactly one of two paths, decided by the Boolean
test of source line 230 (`module && module.supportsMethod(commandName)`,
here `localHandles`): it invokes the locally instantiated module's method
as `module[commandName](params, destination)` and propagates its outcome,
or it returns the result of `forwardCommand(command)`. -/
theorem handleCommand_local_or_forward (cls : HandlerClass)
    (fwd : Command → SyncResult) (st : MHState) (command : Command)
    (h : supportsCommand cls command.moduleName command.commandName
      command.destination = true) :
    (localHandles
        (getModuleInstance cls st.cache command.moduleName
          command.destination).1 command.commandName = true →
      ∃ m, (getModuleInstance cls st.cache command.moduleName
          command.destination).1 = some m ∧
        m.supportsMethod command.commandName = true ∧
        (handleCommand cls fwd st command).1 =
          .returned (m.invoke command.commandName command.params
            command.destination)) ∧
    (localHandles
        (getModuleInstance cls st.cache command.moduleName
          command.destination).1 command.commandName = false →
      (handleCommand cls fwd st command).1 = fwd command) := by
  simp only [handleCommand, h, Bool.not_true, Bool.false_eq_true,
    if_false]
  cases hinst : (getModuleInstance cls st.cache command.moduleName
      command.destination).1 with
  | none =>
    refine ⟨?_, ?_⟩
    · intro hl
      simp [localHandles] at hl
    · intro _
      rfl
  | some m =>
    cases hsup : m.supportsMethod command.commandName with
    | true =>
      refine ⟨?_, ?_⟩
      · intro _
        exact ⟨m, rfl, hsup, by simp [hsup]⟩
      · intro hl
        simp [localHandles, hsup] at hl
    | false =>
      refine ⟨?_, ?_⟩
      · intro hl
        simp [localHandles, hsup] at hl
      · intro _
        simp [hsup]

/-- Witness for C1: on the fixture, the command "nav.go" is supported, the
local instance handles it, and `handleCommand` propagates the instance's
result. -/
theorem handleCommand_local_or_forward_witness :
    (localHandles
        (getModuleInstance sampleHandlerClass sampleState.cache
          sampleCommand.moduleName sampleCommand.destination).1
        sampleCommand.commandName = true →
      ∃ m, (getModuleInstance sampleHandlerClass sampleState.cache
          sampleCommand.moduleName sampleCommand.destination).1 = some m ∧
        m.supportsMethod sampleCommand.commandName = true ∧
        (handleCommand sampleHandlerClass baseForwardCommand sampleState
            sampleCommand).1 =
          .returned (m.invoke sampleCommand.commandName sampleCommand.params
            sampleCommand.destination)) ∧
    (localHandles
        (getModuleInstance sampleHandlerClass sampleState.cache
          sampleCommand.moduleName sampleCommand.destination).1
        sampleCommand.commandName = false →
      (handleCommand sampleHandlerClass baseForwardCommand sampleState
          sampleCommand).1 = baseForwardCommand sampleCommand) :=
  handleCommand_local_or_forward sampleHandlerClass baseForwardCommand
    sampleState sampleCommand (by decide)

/-- C2: assuming the subclass `forwardCommand` never itself throws an
`UnsupportedCommandError` (the base implementation throws a plain
`Error`), `handleCommand` fails with `UnsupportedCommandError` iff
`supportsCommand(moduleName, commandName, destination)` is false — i.e.
iff no class returned by `getAllModuleClasses` supports the command name —
and in that case the error message names the module, the command and the
destination type. -/
theorem handleCommand_unsupported_characterization (cls : HandlerClass)
    (fwd : Command → SyncResult) (st : MHState) (command : Command)
    (hfwd : ∀ c, (fwd c).isUnsupportedThrow = false) :
    ((handleCommand cls fwd st command).1.isUnsupportedThrow = true ↔
      supportsCommand cls command.moduleName command.commandName
        command.destination = false) ∧
    (supportsCommand cls command.moduleName command.commandName
        command.destination = false →
      (handleCommand cls fwd st command).1 =
        .threw (.unsupportedCommand
          (command.moduleName ++ "." ++ command.commandName ++
            " not supported for destination " ++
            command.destination.type))) := by
  cases hs : supportsCommand cls command.moduleName command.commandName
      command.destination with
  | false =>
    refine ⟨⟨fun _ => rfl, fun _ => ?_⟩, fun _ => ?_⟩
    · simp [handleCommand, hs, SyncResult.isUnsupportedThrow]
    · simp [handleCommand, hs]
  | true =>
    refine ⟨⟨fun hthrow => ?_, fun hfalse => ?_⟩, fun hfalse => ?_⟩
    · exfalso
      simp only [handleCommand, hs, Bool.not_true, Bool.false_eq_true,
        if_false] at hthrow
      cases hinst : (getModuleInstance cls st.cache command.moduleName
          command.destination).1 with
      | none =>
        rw [hinst] at hthrow
        simp [hfwd] at hthrow
      | some m =>
        rw [hinst] at hthrow
        cases hsup : m.supportsMethod command.commandName with
        | true =>
          simp [hsup, SyncResult.isUnsupportedThrow] at hthrow
        | false =>
          simp [hsup, hfwd] at hthrow
    · exact absurd hfalse (by simp [hs])
    · exact absurd hfalse (by simp [hs])

/-- Witness for C2: on the fixture, for the command "unknown.go" (no
registered classes) `handleCommand` fails with `UnsupportedCommandError`
naming module, command and destination type; the hypothesis holds for the
base `forwardCommand`, which throws a plain `Error`. -/
theorem handleCommand_unsupported_characterization_witness :
    ((handleCommand sampleHandlerClass baseForwardCommand sampleState
        sampleUnknownCommand).1.isUnsupportedThrow = true ↔
      supportsCommand sampleHandlerClass sampleUnknownCommand.moduleName
        sampleUnknownCommand.commandName sampleUnknownCommand.destination
        = false) ∧
    (supportsCommand sampleHandlerClass sampleUnknownCommand.moduleName
        sampleUnknownCommand.commandName sampleUnknownCommand.destination
        = false →
      (handleCommand sampleHandlerClass baseForwardCommand sampleState
          sampleUnknownCommand).1 =
        .threw (.unsupportedCommand
          (sampleUnknownCommand.moduleName ++ "." ++
            sampleUnknownCommand.commandName ++
            " not supported for destination " ++
            sampleUnknownCommand.destination.type))) :=
  handleCommand_unsupported_characterization sampleHandlerClass
    baseForwardCommand sampleState sampleUnknownCommand (fun _ => rfl)

/-- Witness for C3: on the fixture handler, a bare-options `emitEvent`
call emits exactly one "message-handler-event" with `isProtocolEvent`
false and the handler's session id, plus the bare re-emission. -/
theorem emitEvent_envelope_witness :
    (emitEvent sampleState.handler "nav.navigated" "url" ⟨none⟩).filter
        Emission.isMessageHandlerEvent =
      [.messageHandlerEvent
        ⟨"nav.navigated", "url",
          (EmitOptions.mk none).isProtocolEvent.getD false,
          sampleState.handler.sessionId⟩] ∧
    (Emission.named "nav.navigated" "url" ∈
        emitEvent sampleState.handler "nav.navigated" "url" ⟨none⟩ ↔
      (EmitOptions.mk none).isProtocolEvent.getD false = false) ∧
    emitEvent sampleState.handler "nav.navigated" "url" ⟨none⟩ =
      emitEvent sampleState.handler "nav.navigated" "url" ⟨some false⟩ :=
  emitEvent_envelope sampleState.handler "nav.navigated" "url" ⟨none⟩

/-- Witness for the amended C6: at a concrete command the base
`forwardCommand` throws and does not return a resolved value. -/
theorem baseForwardCommand_always_fails_witness :
    baseForwardCommand sampleUnknownCommand =
      .threw (.genericError "Not implemented") ∧
    baseForwardCommand sampleUnknownCommand ≠ .returned (.resolved "ok") :=
  ⟨(baseForwardCommand_always_fails sampleUnknownCommand).1,
   (baseForwardCommand_always_fails sampleUnknownCommand).2.2
     (.resolved "ok")⟩

/-- C4 counterexample: `handleCommand` is not `async` in the source; on a
concrete unsupported command the `UnsupportedCommandError` is raised as a
synchronous exception (`throw`) at the call site, not delivered as a
rejected promise — refuting the claim that every command failure reaches
the caller as a rejected/failed result rather than a synchronous
exception. -/
theorem handleCommand_sync_throw_counterexample :
    (handleCommand sampleHandlerClass baseForwardCommand sampleState
        sampleUnknownCommand).1 =
      .threw (.unsupportedCommand
        "unknown.go not supported for destination WINDOW_GLOBAL") ∧
    (handleCommand sampleHandlerClass baseForwardCommand sampleState
        sampleUnknownCommand).1.isThrow = true := by
  decide

/-- C4 amended: on the base handler, `handleCommand` either synchronously
throws — the `UnsupportedCommandError` when no resolved class supports
the command, or the base `forwardCommand`'s plain `Error` — or returns
the local module's promise, inside which any module failure travels to
the caller as a rejection; failures are never swallowed, but the
unsupported-command and base-forwarding failures are synchronous
exceptions, not rejected promises. -/
theorem handleCommand_base_failure_modes (cls : HandlerClass)
    (st : MHState) (command : Command) :
    (handleCommand cls baseForwardCommand st command).1 =
        .threw (.unsupportedCommand
          (command.moduleName ++ "." ++ command.commandName ++
            " not supported for destination " ++
            command.destination.type)) ∨
    (handleCommand cls baseForwardCommand st command).1 =
        .threw (.genericError "Not implemented") ∨
    ∃ m : ModuleInstance,
      (getModuleInstance cls st.cache command.moduleName
        command.destination).1 = some m ∧
      m.supportsMethod command.commandName = true ∧
      (handleCommand cls baseForwardCommand st command).1 =
        .returned (m.invoke command.commandName command.params
          command.destination) := by
  cases hs : supportsCommand cls command.moduleName command.commandName
      command.destination with
  | false =>
    exact Or.inl (by simp [handleCommand, hs])
  | true =>
    simp only [handleCommand, hs, Bool.not_true, Bool.false_eq_true,
      if_false]
    cases hinst : (getModuleInstance cls st.cache command.moduleName
        command.destination).1 with
    | none =>
      exact Or.inr (Or.inl rfl)
    | some m =>
      cases hsup : m.supportsMethod command.commandName with
      | true =>
        exact Or.inr (Or.inr ⟨m, rfl, hsup, by simp [hsup]⟩)
      | false =>
        exact Or.inr (Or.inl (by simp [hsup, baseForwardCommand]))

/-- C5 counterexample: on a concrete handler state, two successive
`destroy()` calls emit the "message-handler-destroyed" notification twice
in total (the source emits it unconditionally on every call), refuting
"exactly once in total". -/
theorem destroy_twice_counterexample :
    ((destroy sampleState).2 ++ (destroy (destroy sampleState).1).2).countP
      Emission.isDestroyedNotification = 2 ∧
    ¬ ((destroy sampleState).2 ++
        (destroy (destroy sampleState).1).2).countP
      Emission.isDestroyedNotification = 1 := by
  decide

/-- C5 amended: calling `destroy()` twice in succession produces no error
— each call (with the spec-modelled component teardowns) is total and the
second call leaves the state exactly as the first did — but the
"message-handler-destroyed" notification is emitted unconditionally on
every call: once per call, twice in total, not exactly once. -/
theorem destroy_twice_behaviour (st : MHState) :
    (destroy st).2 = [.messageHandlerDestroyed st.handler] ∧
    (destroy (destroy st).1).1 = (destroy st).1 ∧
    (destroy (destroy st).1).2 = [.messageHandlerDestroyed st.handler] ∧
    ((destroy st).2 ++ (destroy (destroy st).1).2).countP
      Emission.isDestroyedNotification = 2 := by
  refine ⟨rfl, rfl, rfl, ?_⟩
  simp [destroy, Emission.isDestroyedNotification]

/-- C8: the transport-forwarding policy (modelled from the spec): when
the first attempt aborts mid-flight, a command with `retryOnAbort: true`
is retried exactly once — succeeding when the second attempt completes
successfully, and surfacing a transport error when the retry itself
aborts — while with `retryOnAbort` false (or absent, the default) the
abort surfaces to the caller immediately as a transport error; at most
two attempts are ever made, and a second attempt happens exactly when
`retryOnAbort` is set. -/
theorem retryOnAbort_policy (command : Command) (a2 : TransportAttempt)
    (p : PromiseOutcome) :
    (command.retryOnAbort = some true →
      forwardOverTransport command .aborted (.completed p) = (p, 2) ∧
      forwardOverTransport command .aborted .aborted =
        (.rejected (.transportAbort "transport aborted"), 2)) ∧
    (command.retryOnAbort.getD false = false →
      forwardOverTransport command .aborted a2 =
        (.rejected (.transportAbort "transport aborted"), 1)) ∧
    forwardOverTransport command (.completed p) a2 = (p, 1) ∧
    (forwardOverTransport command .aborted a2).2 ≤ 2 ∧
    ((forwardOverTransport command .aborted a2).2 = 2 ↔
      command.retryOnAbort.getD false = true) := by
  refine ⟨?_, ?_, ?_, ?_, ?_⟩
  · intro h1
    have hr : command.retryOnAbort.getD false = true := by rw [h1]; rfl
    exact ⟨by simp [forwardOverTransport, hr], by
      simp [forwardOverTransport, hr]⟩
  · intro h2
    cases a2 <;> simp [forwardOverTransport, h2]
  · simp [forwardOverTransport]
  · cases hr : command.retryOnAbort.getD false <;> cases a2 <;>
      simp [forwardOverTransport, hr]
  · cases hr : command.retryOnAbort.getD false <;> cases a2 <;>
      simp [forwardOverTransport, hr]

/-- Witness for C8: with `retryOnAbort: true` an aborted first attempt
followed by a successful second attempt makes the command succeed (two
attempts consumed); with the flag absent the first abort surfaces as a
transport error after a single attempt. -/
theorem retryOnAbort_policy_witness :
    forwardOverTransport sampleRetryCommand .aborted
        (.completed (.resolved "ok")) = (.resolved "ok", 2) ∧
    forwardOverTransport sampleCommand .aborted
        (.completed (.resolved "ok")) =
      (.rejected (.transportAbort "transport aborted"), 1) :=
  ⟨((retryOnAbort_policy sampleRetryCommand .aborted (.resolved "ok")).1
      rfl).1,
   (retryOnAbort_policy sampleCommand (.completed (.resolved "ok"))
      (.resolved "ok")).2.1 rfl⟩

end MessageHandlerSpec
